import Mathlib

/-!
Shallow embedding of the balance-consistency subsystem of the personal
finance tracker: the account ledger, the transaction recorder
(src/transactions/models.py), the transfer engine and the accounts API
serializers (src/accounts/models.py, src/accounts/api/serializers.py), the
budget tracker (src/budgets/models.py) and the goal tracker
(src/goals/models.py).  Monetary decimals are embedded as rationals, the
string-dispatched type/status/threshold fields as strings, exactly as the
source compares them.  Nullable decimal columns become `Option`.
-/

/-- Account row, src/accounts/models.py class `Account`: only the two
balance columns matter for the ledger rules. -/
structure Account where
  initial_balance : ℚ
  current_balance : ℚ
deriving Repr, DecidableEq

/-- src/accounts/models.py lines 101-107, `Account.update_balance`: credit
for the string "income", debit for every other transaction type. -/
def Account.update_balance (a : Account) (amount : ℚ) (transaction_type : String) : Account :=
  if transaction_type = "income" then
    { a with current_balance := a.current_balance + amount }
  else
    { a with current_balance := a.current_balance - amount }

/-- Transaction row, src/transactions/models.py class `Transaction`
(the columns the save hook reads or writes; `balance_after` is nullable). -/
structure Transaction where
  amount : ℚ
  transaction_type : String
  status : String
  effective_amount : ℚ
  balance_after : Option ℚ
deriving Repr, DecidableEq

/-- src/transactions/models.py lines 153-165, `Transaction.save` acting on
the loaded account instance: sets `effective_amount`, applies
`update_balance`, snapshots `balance_after`, returns the persisted row and
the updated account. -/
def Transaction.save (t : Transaction) (acc : Account) : Transaction × Account :=
  let eff := if t.transaction_type = "expense" then -t.amount else t.amount
  let acc1 := acc.update_balance t.amount t.transaction_type
  ({ t with effective_amount := eff, balance_after := some acc1.current_balance }, acc1)

/-- src/accounts/models.py lines 154-165, `AccountTransfer.save` acting on
the two loaded account instances: recomputes `converted_amount`, debits the
source, credits the destination.  Returns the stored converted amount and
the two updated instances. -/
def AccountTransfer.save (from_acc to_acc : Account) (amount exchange_rate : ℚ) :
    ℚ × Account × Account :=
  let converted := amount * exchange_rate
  (converted,
   { from_acc with current_balance := from_acc.current_balance - amount },
   { to_acc with current_balance := to_acc.current_balance + converted })

/-- Persisted transaction row in the database log (fields of
src/transactions/models.py `Transaction` the invariant reads). -/
structure TxRow where
  account : Nat
  amount : ℚ
  transaction_type : String
  status : String
  effective_amount : ℚ
deriving Repr, DecidableEq

/-- Persisted transfer row, src/accounts/models.py class `AccountTransfer`. -/
structure TransferRow where
  from_account : Nat
  to_account : Nat
  amount : ℚ
  exchange_rate : ℚ
  converted_amount : ℚ
deriving Repr, DecidableEq

/-- Database state: the account table (ids to rows) plus the two logs. -/
structure LedgerState where
  accounts : Nat → Account
  txs : List TxRow
  transfers : List TransferRow

/-- State-level effect of src/transactions/models.py `Transaction.save` on
a freshly loaded account: apply `update_balance`, persist the row. -/
def recordTx (s : LedgerState) (aid : Nat) (amount : ℚ) (ttype stat : String) : LedgerState :=
  let acc := s.accounts aid
  let eff := if ttype = "expense" then -amount else amount
  let acc1 := acc.update_balance amount ttype
  { accounts := Function.update s.accounts aid acc1
    txs := ⟨aid, amount, ttype, stat, eff⟩ :: s.txs
    transfers := s.transfers }

/-- State-level effect of src/accounts/models.py `AccountTransfer.save`:
both account instances are loaded before either is written back (the DRF
create path resolves each foreign key separately), so the destination write
uses the balance read before the source write. -/
def applyTransfer (s : LedgerState) (fid tid : Nat) (amount rate : ℚ) : LedgerState :=
  let from_acc := s.accounts fid
  let to_acc := s.accounts tid
  let converted := amount * rate
  let accounts1 := Function.update s.accounts fid
    { from_acc with current_balance := from_acc.current_balance - amount }
  let accounts2 := Function.update accounts1 tid
    { to_acc with current_balance := to_acc.current_balance + converted }
  { accounts := accounts2
    txs := s.txs
    transfers := ⟨fid, tid, amount, rate, converted⟩ :: s.transfers }

/-- One money-movement request against the subsystem. -/
inductive Event where
  | record (account : Nat) (amount : ℚ) (transaction_type status : String)
  | transfer (from_account to_account : Nat) (amount exchange_rate : ℚ)
deriving Repr, DecidableEq

/-- Apply a single event to the database state. -/
def stepEvent (s : LedgerState) : Event → LedgerState
  | .record aid amount ttype stat => recordTx s aid amount ttype stat
  | .transfer fid tid amount rate => applyTransfer s fid tid amount rate

/-- Apply a sequence of events in order. -/
def applyEvents (s : LedgerState) (evs : List Event) : LedgerState :=
  evs.foldl stepEvent s

/-- Fresh database: every account starts with its initial balance and the
logs are empty. -/
def initState (bal : Nat → ℚ) : LedgerState :=
  { accounts := fun i => ⟨bal i, bal i⟩, txs := [], transfers := [] }

/-- Sum of `effective_amount` over the completed transactions of one
account, the quantity named by the spec invariant. -/
def effectiveSumCompleted (txs : List TxRow) (aid : Nat) : ℚ :=
  ((txs.filter fun t => t.account == aid && t.status == "completed").map
    fun t => t.effective_amount).sum

/-- Signed delta a stored transfer row contributes to one account: minus
`amount` on the source leg, plus `converted_amount` on the destination leg. -/
def transferDelta (tr : TransferRow) (aid : Nat) : ℚ :=
  (if tr.to_account = aid then tr.converted_amount else 0) -
    (if tr.from_account = aid then tr.amount else 0)

/-- Sum of transfer deltas for one account over the transfer log. -/
def transferDeltaSum (l : List TransferRow) (aid : Nat) : ℚ :=
  (l.map fun tr => transferDelta tr aid).sum

/-- Balance delta that `Account.update_balance` actually applies for a
stored transaction row: plus `amount` for income, minus `amount` for every
other transaction type. -/
def ledgerDelta (t : TxRow) : ℚ :=
  if t.transaction_type = "income" then t.amount else -t.amount

/-- Sum of the applied ledger deltas of all stored transactions of one
account, completed or not. -/
def ledgerDeltaSum (txs : List TxRow) (aid : Nat) : ℚ :=
  ((txs.filter fun t => t.account == aid).map ledgerDelta).sum

/-- The spec's balance invariant for one account, stated exactly as the
spec words it: current balance = initial balance + effective amounts of
completed transactions + transfer deltas. -/
def specBalanceInvariant (s : LedgerState) (aid : Nat) : Prop :=
  (s.accounts aid).current_balance =
    (s.accounts aid).initial_balance + effectiveSumCompleted s.txs aid +
      transferDeltaSum s.transfers aid

/-- The balance decomposition the code actually maintains: current balance
= initial balance + applied ledger deltas of all stored transactions +
transfer deltas. -/
def codeBalanceInvariant (s : LedgerState) (aid : Nat) : Prop :=
  (s.accounts aid).current_balance =
    (s.accounts aid).initial_balance + ledgerDeltaSum s.txs aid +
      transferDeltaSum s.transfers aid

/-- Request path for a transfer: src/accounts/api/serializers.py lines
44-56, `AccountTransferSerializer`, declares no `validate` method, so the
only check before `AccountTransfer.save` is the model field validator
`MinValueValidator(Decimal("0.01"))` on `amount`
(src/accounts/models.py lines 125-130).  In particular nothing compares
`from_account` with `to_account`. -/
def transferRequest (s : LedgerState) (fid tid : Nat) (amount rate : ℚ) :
    Except String LedgerState :=
  if amount < 1 / 100 then .error "ValidationError"
  else .ok (applyTransfer s fid tid amount rate)

/-- Modelled from the spec: the transaction-recording request layer (the
transactions serializer and create view are absent from src; only
src/transactions/urls.py references them) runs model validation before
`Transaction.save`, enforcing the field validator
`MinValueValidator(Decimal("0.01"))` declared on `amount` in
src/transactions/models.py lines 42-47, and rejects with a ValidationError
before any ledger mutation. -/
def recordRequest (s : LedgerState) (aid : Nat) (amount : ℚ) (ttype stat : String) :
    Except String LedgerState :=
  if amount < 1 / 100 then .error "ValidationError"
  else .ok (recordTx s aid amount ttype stat)

/-- Budget row, src/budgets/models.py class `Budget`: the columns the
alert and percentage methods read.  The nullable column
`custom_alert_percentage` becomes an `Option`; `alert_threshold` is the
raw stored string the code dispatches on. -/
structure Budget where
  total_budget : ℚ
  total_spent : ℚ
  alert_threshold : String
  custom_alert_percentage : Option ℚ
deriving Repr, DecidableEq

/-- src/budgets/models.py lines 132-136, `Budget.get_spending_percentage`. -/
def Budget.get_spending_percentage (b : Budget) : ℚ :=
  if b.total_budget = 0 then 0
  else b.total_spent / b.total_budget * 100

/-- src/budgets/models.py lines 142-144, `Budget.is_over_budget`. -/
def Budget.is_over_budget (b : Budget) : Bool :=
  b.total_spent > b.total_budget

/-- src/budgets/models.py lines 158-171, `Budget.should_alert`: string
dispatch over `alert_threshold`; in the custom branch the comparison of
the percentage with a null `custom_alert_percentage` raises a TypeError,
embedded as `none`; any unmatched threshold string falls through to
`False`. -/
def Budget.should_alert (b : Budget) : Option Bool :=
  let percentage := b.get_spending_percentage
  if b.alert_threshold = "80_percent" then some (decide (80 ≤ percentage))
  else if b.alert_threshold = "90_percent" then some (decide (90 ≤ percentage))
  else if b.alert_threshold = "100_percent" then some (decide (100 ≤ percentage))
  else if b.alert_threshold = "custom" then
    match b.custom_alert_percentage with
    | some c => some (decide (c ≤ percentage))
    | none => none
  else some false

/-- Modelled from the spec: `total_spent` is maintained by the spend
aggregation (absent from src; only the admin reads it) as the sum of the
amounts of the transactions attributed to the budget, each of which passed
the positive-amount validator. -/
def totalSpentOf (attributed : List ℚ) : ℚ := attributed.sum

/-- Financial goal row, src/goals/models.py class `FinancialGoal`: the
two columns the progress rules read. -/
structure FinancialGoal where
  target_amount : ℚ
  current_amount : ℚ
deriving Repr, DecidableEq

/-- Goal contribution row, src/goals/models.py class `GoalContribution`. -/
structure GoalContribution where
  amount : ℚ
deriving Repr, DecidableEq

/-- Modelled from the spec: applying a contribution adds its amount to the
owning goal's `current_amount`.  The application code is absent from src:
`GoalContribution` declares no save hook and no view in src creates
contributions, so the spec sentence is the authority. -/
def FinancialGoal.applyContribution (g : FinancialGoal) (c : GoalContribution) :
    FinancialGoal :=
  { g with current_amount := g.current_amount + c.amount }

/-- Fold of contribution application over a list of contributions. -/
def FinancialGoal.applyContributions (g : FinancialGoal) (cs : List GoalContribution) :
    FinancialGoal :=
  cs.foldl FinancialGoal.applyContribution g

/-! ## Helper lemmas -/

lemma update_balance_initial (a : Account) (amount : ℚ) (ttype : String) :
    (a.update_balance amount ttype).initial_balance = a.initial_balance := by
  unfold Account.update_balance
  split <;> rfl

lemma update_balance_current (a : Account) (amount : ℚ) (ttype : String) :
    (a.update_balance amount ttype).current_balance =
      a.current_balance + (if ttype = "income" then amount else -amount) := by
  unfold Account.update_balance
  split <;> simp [sub_eq_add_neg]

lemma ledgerDeltaSum_cons (r : TxRow) (txs : List TxRow) (aid : Nat) :
    ledgerDeltaSum (r :: txs) aid =
      (if r.account = aid then ledgerDelta r else 0) + ledgerDeltaSum txs aid := by
  by_cases h : r.account = aid
  · simp [ledgerDeltaSum, List.filter_cons, h]
  · simp [ledgerDeltaSum, List.filter_cons, h]

lemma transferDeltaSum_cons (tr : TransferRow) (l : List TransferRow) (aid : Nat) :
    transferDeltaSum (tr :: l) aid = transferDelta tr aid + transferDeltaSum l aid := by
  simp [transferDeltaSum]

lemma recordTx_preserves (s : LedgerState) (aid0 : Nat) (amount : ℚ) (ttype stat : String)
    (h : ∀ aid, codeBalanceInvariant s aid) :
    ∀ aid, codeBalanceInvariant (recordTx s aid0 amount ttype stat) aid := by
  intro aid
  have hinv := h aid
  unfold codeBalanceInvariant at hinv ⊢
  unfold recordTx
  simp only [Function.update_apply, ledgerDeltaSum_cons]
  by_cases ha : aid = aid0
  · subst ha
    simp only [if_pos rfl, if_true, update_balance_initial, update_balance_current, ledgerDelta]
    by_cases hty : ttype = "income"
    · simp [hty]
      linarith
    · simp [hty]
      linarith
  · have ha2 : ¬(aid0 = aid) := fun hh => ha hh.symm
    simp only [if_neg ha, if_neg ha2, zero_add]
    exact hinv

lemma applyTransfer_preserves (s : LedgerState) (fid tid : Nat) (amount rate : ℚ)
    (hne : fid ≠ tid) (h : ∀ aid, codeBalanceInvariant s aid) :
    ∀ aid, codeBalanceInvariant (applyTransfer s fid tid amount rate) aid := by
  intro aid
  have hinv := h aid
  unfold codeBalanceInvariant at hinv ⊢
  unfold applyTransfer
  simp only [Function.update_apply, transferDeltaSum_cons, transferDelta]
  by_cases hat : aid = tid
  · subst hat
    have hf : ¬(fid = aid) := hne
    simp [if_pos rfl, if_neg hf]
    linarith
  · have hat2 : ¬(tid = aid) := fun hh => hat hh.symm
    by_cases haf : aid = fid
    · subst haf
      simp [if_neg hat, if_pos rfl, if_neg hat2]
      linarith
    · have haf2 : ¬(fid = aid) := fun hh => haf hh.symm
      simp [if_neg hat, if_neg haf, if_neg hat2, if_neg haf2]
      linarith

lemma applyEvents_preserves (evs : List Event) (s : LedgerState)
    (hdist : ∀ f t a r, Event.transfer f t a r ∈ evs → f ≠ t)
    (h : ∀ aid, codeBalanceInvariant s aid) :
    ∀ aid, codeBalanceInvariant (applyEvents s evs) aid := by
  induction evs generalizing s with
  | nil => simpa [applyEvents] using h
  | cons e rest ih =>
    have hstep : ∀ aid, codeBalanceInvariant (stepEvent s e) aid := by
      cases e with
      | record aid0 amount ttype stat =>
        exact recordTx_preserves s aid0 amount ttype stat h
      | transfer fid tid amount rate =>
        exact applyTransfer_preserves s fid tid amount rate
          (hdist fid tid amount rate (List.mem_cons_self _ _)) h
    have hrest : ∀ f t a r, Event.transfer f t a r ∈ rest → f ≠ t := by
      intro f t a r hm
      exact hdist f t a r (List.mem_cons_of_mem _ hm)
    simpa [applyEvents] using ih (stepEvent s e) hrest hstep

lemma initState_invariant (bal : Nat → ℚ) :
    ∀ aid, codeBalanceInvariant (initState bal) aid := by
  intro aid
  simp [codeBalanceInvariant, initState, ledgerDeltaSum, transferDeltaSum]

/-! ## Claim theorems -/

/-- Claim C1, counterexample: after recording a completed transfer-type
transaction of 10 and a pending income of 40 on a fresh zero-balance
account, the balance is 30 while the spec formula (initial + effective
amounts of completed transactions + transfer deltas) gives 10: the code
debits transfer-type transactions whose effective_amount is positive, and
applies pending transactions that the formula excludes. -/
theorem C1_counterexample :
    ¬ specBalanceInvariant (applyEvents (initState fun _ => 0)
      [Event.record 0 10 "transfer" "completed", Event.record 0 40 "income" "pending"]) 0 := by
  simp +decide [specBalanceInvariant, applyEvents, stepEvent, recordTx, initState,
    Account.update_balance, Function.update, effectiveSumCompleted, transferDeltaSum]
  norm_num

/-- Claim C1, amended: at every state reachable by transaction recordings
and transfers between distinct accounts, each current balance equals the
initial balance plus the applied ledger delta of every stored transaction
regardless of status (+amount for income, -amount for every other type,
which differs from effective_amount on transfer-type rows) plus the sum of
transfer deltas. -/
theorem C1_balance_invariant_amended (bal : Nat → ℚ) (evs : List Event)
    (hdist : ∀ f t a r, Event.transfer f t a r ∈ evs → f ≠ t) (aid : Nat) :
    codeBalanceInvariant (applyEvents (initState bal) evs) aid :=
  applyEvents_preserves evs (initState bal) hdist (initState_invariant bal) aid

/-- Claim C1, witness: the amended invariant evaluated on a concrete
two-event history. -/
theorem C1_witness :
    codeBalanceInvariant (applyEvents (initState fun _ => (0 : ℚ))
      [Event.record 0 10 "transfer" "completed", Event.transfer 0 1 5 2]) 0 :=
  C1_balance_invariant_amended (fun _ => 0)
    [Event.record 0 10 "transfer" "completed", Event.transfer 0 1 5 2]
    (by
      intro f t a r hm
      simp only [List.mem_cons, List.mem_singleton] at hm
      rcases hm with hm | hm | hm
      · exact absurd hm (by simp)
      · cases hm
        decide
      · cases hm) 0

/-- Claim C2: applying a transfer between two distinct accounts records a
row whose converted_amount is exactly amount times exchange_rate, debits
the source balance by amount, credits the destination balance by the
converted amount, performs both legs in the same atomic step, and touches
no other account. -/
theorem C2_transfer_conversion (s : LedgerState) (fid tid : Nat) (amount rate : ℚ)
    (hne : fid ≠ tid) :
    (applyTransfer s fid tid amount rate).transfers =
      ⟨fid, tid, amount, rate, amount * rate⟩ :: s.transfers ∧
    ((applyTransfer s fid tid amount rate).accounts fid).current_balance =
      (s.accounts fid).current_balance - amount ∧
    ((applyTransfer s fid tid amount rate).accounts tid).current_balance =
      (s.accounts tid).current_balance + amount * rate ∧
    ∀ aid, aid ≠ fid → aid ≠ tid →
      (applyTransfer s fid tid amount rate).accounts aid = s.accounts aid := by
  refine ⟨rfl, ?_, ?_, ?_⟩
  · have h1 : ¬(fid = tid) := hne
    simp [applyTransfer, Function.update_apply, if_neg h1]
  · simp [applyTransfer, Function.update_apply]
  · intro aid h1 h2
    simp [applyTransfer, Function.update_apply, if_neg h1, if_neg h2]

/-- Claim C2, witness: scenario 2 of the spec, transferring 50.00 at rate
0.90 from an account holding 70.00 to one holding 0.00 yields converted
amount 45.00 and balances 20.00 and 45.00. -/
theorem C2_witness :
    ((applyTransfer (initState fun i => if i = 0 then (70 : ℚ) else 0) 0 1 50 (9 / 10)).transfers =
      ⟨0, 1, 50, 9 / 10, 50 * (9 / 10)⟩ ::
        (initState fun i => if i = 0 then (70 : ℚ) else 0).transfers) ∧
    ((applyTransfer (initState fun i => if i = 0 then (70 : ℚ) else 0)
        0 1 50 (9 / 10)).accounts 0).current_balance = 20 ∧
    ((applyTransfer (initState fun i => if i = 0 then (70 : ℚ) else 0)
        0 1 50 (9 / 10)).accounts 1).current_balance = 45 ∧
    (50 : ℚ) * (9 / 10) = 45 := by
  have h := C2_transfer_conversion (initState fun i => if i = 0 then (70 : ℚ) else 0)
    0 1 50 (9 / 10) (by decide)
  refine ⟨h.1, ?_, ?_, by norm_num⟩
  · rw [h.2.1]
    norm_num [initState]
  · rw [h.2.2.1]
    norm_num [initState]

/-- Claim C3, counterexample: saving the same expense transaction of 30.00
a second time against the same account moves the balance from 70.00 to
40.00 and rewrites balance_after from 70.00 to 40.00, so a re-save neither
leaves the balance unchanged nor keeps balance_after immutable. -/
theorem C3_counterexample :
    (Transaction.save (Transaction.save ⟨30, "expense", "completed", 0, none⟩ ⟨100, 100⟩).1
        (Transaction.save ⟨30, "expense", "completed", 0, none⟩ ⟨100, 100⟩).2).2.current_balance ≠
      (Transaction.save ⟨30, "expense", "completed", 0, none⟩ ⟨100, 100⟩).2.current_balance ∧
    (Transaction.save (Transaction.save ⟨30, "expense", "completed", 0, none⟩ ⟨100, 100⟩).1
        (Transaction.save ⟨30, "expense", "completed", 0, none⟩ ⟨100, 100⟩).2).1.balance_after ≠
      (Transaction.save ⟨30, "expense", "completed", 0, none⟩ ⟨100, 100⟩).1.balance_after := by
  constructor
  · simp +decide [Transaction.save, Account.update_balance]
  · simp +decide [Transaction.save, Account.update_balance]

/-- Claim C3, amended: the balance delta is applied once per save call,
not once per originating record: re-saving an already saved transaction
applies its signed delta to the account a second time and rewrites
balance_after with the new balance, and re-saving a transfer debits the
source and credits the destination a second time. -/
theorem C3_resave_applies_again (t : Transaction) (acc fa ta : Account) (amount rate : ℚ) :
    (Transaction.save (Transaction.save t acc).1 (Transaction.save t acc).2).2.current_balance =
      (Transaction.save t acc).2.current_balance +
        (if t.transaction_type = "income" then t.amount else -t.amount) ∧
    (Transaction.save (Transaction.save t acc).1 (Transaction.save t acc).2).1.balance_after =
      some ((Transaction.save (Transaction.save t acc).1
        (Transaction.save t acc).2).2.current_balance) ∧
    (AccountTransfer.save (AccountTransfer.save fa ta amount rate).2.1
        (AccountTransfer.save fa ta amount rate).2.2 amount rate).2.1.current_balance =
      (AccountTransfer.save fa ta amount rate).2.1.current_balance - amount ∧
    (AccountTransfer.save (AccountTransfer.save fa ta amount rate).2.1
        (AccountTransfer.save fa ta amount rate).2.2 amount rate).2.2.current_balance =
      (AccountTransfer.save fa ta amount rate).2.2.current_balance + amount * rate := by
  refine ⟨?_, ?_, ?_, ?_⟩
  · simp [Transaction.save, update_balance_current]
  · simp [Transaction.save]
  · simp [AccountTransfer.save]
  · simp [AccountTransfer.save]

/-- Claim C4, counterexample: recording a transfer-type transaction of
10.00 on a zero balance sets effective_amount to +10.00 (a transfer-in by
sign) yet debits the account, leaving balance -10.00 instead of the
credited +10.00 the claim predicts for a transfer-in. -/
theorem C4_counterexample :
    (Transaction.save ⟨10, "transfer", "completed", 0, none⟩ ⟨0, 0⟩).1.effective_amount = 10 ∧
    (Transaction.save ⟨10, "transfer", "completed", 0, none⟩ ⟨0, 0⟩).2.current_balance = -10 ∧
    (Transaction.save ⟨10, "transfer", "completed", 0, none⟩ ⟨0, 0⟩).2.current_balance ≠
      0 + 10 := by
  refine ⟨?_, ?_, ?_⟩ <;>
    simp +decide [Transaction.save, Account.update_balance]

/-- Claim C4, amended: recording a transaction sets effective_amount to
minus the amount for the expense type and plus the amount for every other
type, credits the account only for the income type and debits it for every
other type (including transfer), and snapshots the resulting balance into
balance_after. -/
theorem C4_record_effects (t : Transaction) (acc : Account) :
    (Transaction.save t acc).1.effective_amount =
      (if t.transaction_type = "expense" then -t.amount else t.amount) ∧
    (Transaction.save t acc).2.current_balance =
      acc.current_balance + (if t.transaction_type = "income" then t.amount else -t.amount) ∧
    (Transaction.save t acc).1.balance_after =
      some ((Transaction.save t acc).2.current_balance) := by
  refine ⟨rfl, ?_, rfl⟩
  simp [Transaction.save, update_balance_current]

/-- Claim C5, code behavior at the failing input: a transfer of 50.00 at
rate 0.90 from account 1 to account 1 (balance 70.00) passes the request
layer without a ValidationError, creates a transfer row, and mutates the
balance to 115.00 (the destination write, using the balance read before
the source write, overwrites the debit). -/
theorem C5_same_account_transfer_not_rejected :
    transferRequest (initState fun i => if i = 1 then (70 : ℚ) else 0) 1 1 50 (9 / 10) =
      .ok (applyTransfer (initState fun i => if i = 1 then (70 : ℚ) else 0) 1 1 50 (9 / 10)) ∧
    ((applyTransfer (initState fun i => if i = 1 then (70 : ℚ) else 0)
        1 1 50 (9 / 10)).accounts 1).current_balance = 115 ∧
    (applyTransfer (initState fun i => if i = 1 then (70 : ℚ) else 0)
        1 1 50 (9 / 10)).transfers.length = 1 := by
  refine ⟨?_, ?_, rfl⟩
  · unfold transferRequest
    rw [if_neg]
    norm_num
  · simp +decide [applyTransfer, initState, Function.update]
    norm_num

/-- Claim C6: a transaction-recording request whose amount is less than or
equal to zero fails the positive-amount field validator and is rejected
with a ValidationError before any ledger mutation. -/
theorem C6_nonpositive_amount_rejected (s : LedgerState) (aid : Nat) (amount : ℚ)
    (ttype stat : String) (h : amount ≤ 0) :
    recordRequest s aid amount ttype stat = .error "ValidationError" := by
  unfold recordRequest
  rw [if_pos]
  linarith

/-- Claim C6, witness: recording an expense of amount 0 is rejected. -/
theorem C6_witness :
    (0 : ℚ) ≤ 0 ∧
    recordRequest (initState fun _ => (0 : ℚ)) 0 0 "expense" "completed" =
      .error "ValidationError" :=
  ⟨le_refl 0,
   C6_nonpositive_amount_rejected (initState fun _ => (0 : ℚ)) 0 0 "expense" "completed"
     (le_refl 0)⟩

/-- Claim C7: applying a contribution adds exactly its amount to the
goal's current_amount, is monotone non-decreasing for the non-negative
amounts the validator admits, and starting from a fresh goal the
current_amount always equals the sum of the applied contributions'
amounts. -/
theorem C7_contribution_sum (g : FinancialGoal) (c : GoalContribution)
    (cs : List GoalContribution) :
    (g.applyContribution c).current_amount = g.current_amount + c.amount ∧
    (0 ≤ c.amount → g.current_amount ≤ (g.applyContribution c).current_amount) ∧
    (g.current_amount = 0 →
      (g.applyContributions cs).current_amount = (cs.map fun x => x.amount).sum) := by
  have hfold : ∀ (cs : List GoalContribution) (g0 : FinancialGoal),
      (g0.applyContributions cs).current_amount =
        g0.current_amount + (cs.map fun x => x.amount).sum := by
    intro cs
    induction cs with
    | nil => intro g0; simp [FinancialGoal.applyContributions]
    | cons c0 rest ih =>
      intro g0
      have h0 := ih (g0.applyContribution c0)
      simp only [FinancialGoal.applyContributions, List.foldl_cons] at h0 ⊢
      rw [h0]
      simp [FinancialGoal.applyContribution, List.map_cons, List.sum_cons]
      ring
  refine ⟨rfl, ?_, ?_⟩
  · intro hc
    simp [FinancialGoal.applyContribution]
    linarith
  · intro h0
    rw [hfold cs g, h0, zero_add]

/-- Claim C7, witness: two contributions of 100 and 50 on a fresh goal
yield current_amount 150. -/
theorem C7_witness :
    (0 : ℚ) ≤ 100 ∧
    (FinancialGoal.applyContributions ⟨5000, 0⟩ [⟨100⟩, ⟨50⟩]).current_amount = 150 := by
  have h := C7_contribution_sum (⟨5000, 0⟩ : FinancialGoal) ⟨100⟩ [⟨100⟩, ⟨50⟩]
  refine ⟨by norm_num, ?_⟩
  rw [h.2.2 rfl]
  norm_num

/-- Claim C8: the spending percentage is 0 when total_budget is 0 and
total_spent / total_budget * 100 otherwise; for a positive total_budget
and a total_spent produced by the aggregation (a sum of non-negative
attributed amounts) the percentage is non-negative; and is_over_budget
holds exactly when total_spent strictly exceeds total_budget. -/
theorem C8_spending_percentage (b : Budget) (l : List ℚ) :
    (b.total_budget = 0 → b.get_spending_percentage = 0) ∧
    (b.total_budget ≠ 0 →
      b.get_spending_percentage = b.total_spent / b.total_budget * 100) ∧
    (0 < b.total_budget → b.total_spent = totalSpentOf l → (∀ a ∈ l, 0 ≤ a) →
      0 ≤ b.get_spending_percentage) ∧
    (b.is_over_budget = true ↔ b.total_budget < b.total_spent) := by
  refine ⟨?_, ?_, ?_, ?_⟩
  · intro h0
    simp [Budget.get_spending_percentage, h0]
  · intro h0
    simp [Budget.get_spending_percentage, h0]
  · intro hpos hsum hnn
    have hspent : 0 ≤ b.total_spent := by
      rw [hsum]
      exact List.sum_nonneg hnn
    have hne : b.total_budget ≠ 0 := ne_of_gt hpos
    rw [Budget.get_spending_percentage, if_neg hne]
    positivity
  · simp [Budget.is_over_budget, gt_iff_lt]

/-- Claim C8, witness: at total_budget 1000 and total_spent 950 the
percentage is non-negative and the budget is not over. -/
theorem C8_witness :
    (0 : ℚ) < 1000 ∧
    0 ≤ Budget.get_spending_percentage ⟨1000, 950, "90_percent", none⟩ ∧
    Budget.is_over_budget ⟨1000, 950, "90_percent", none⟩ = false := by
  have h := C8_spending_percentage (⟨1000, 950, "90_percent", none⟩ : Budget) [950]
  refine ⟨by norm_num, ?_, ?_⟩
  · exact h.2.2.1 (by norm_num) (by simp [totalSpentOf]) (by
      intro a ha
      simp at ha
      rw [ha]
      norm_num)
  · have hlt : ¬((1000 : ℚ) < 950) := by norm_num
    rcases hb : Budget.is_over_budget ⟨1000, 950, "90_percent", none⟩ with _ | _
    · rfl
    · exact absurd (h.2.2.2.mp hb) hlt

/-- Claim C9: should_alert returns true exactly when the spending
percentage has reached the configured threshold, 80 for the 80_percent
setting, 90 for 90_percent, 100 for 100_percent, and the stored custom
percentage for the custom setting. -/
theorem C9_should_alert_thresholds (b : Budget) (c : ℚ) :
    (b.alert_threshold = "80_percent" →
      (b.should_alert = some true ↔ 80 ≤ b.get_spending_percentage)) ∧
    (b.alert_threshold = "90_percent" →
      (b.should_alert = some true ↔ 90 ≤ b.get_spending_percentage)) ∧
    (b.alert_threshold = "100_percent" →
      (b.should_alert = some true ↔ 100 ≤ b.get_spending_percentage)) ∧
    (b.alert_threshold = "custom" → b.custom_alert_percentage = some c →
      (b.should_alert = some true ↔ c ≤ b.get_spending_percentage)) := by
  refine ⟨?_, ?_, ?_, ?_⟩
  · intro hth
    simp +decide [Budget.should_alert, hth]
  · intro hth
    simp +decide [Budget.should_alert, hth]
  · intro hth
    simp +decide [Budget.should_alert, hth]
  · intro hth hc
    simp +decide [Budget.should_alert, hth, hc]

/-- Claim C9, witness: scenario 3 of the spec, total_budget 1000.00,
total_spent 950.00, threshold 90_percent: should_alert is true and the
spending percentage is 95. -/
theorem C9_witness :
    Budget.should_alert ⟨1000, 950, "90_percent", none⟩ = some true ∧
    Budget.get_spending_percentage ⟨1000, 950, "90_percent", none⟩ = 95 := by
  have h := (C9_should_alert_thresholds (⟨1000, 950, "90_percent", none⟩ : Budget) 0).2.1 rfl
  constructor
  · exact h.mpr (by norm_num [Budget.get_spending_percentage])
  · norm_num [Budget.get_spending_percentage]

/-- Claim C10: should_alert is not total: with the custom threshold and a
null custom_alert_percentage the comparison with null raises instead of
returning a boolean (embedded as none), while any threshold string other
than the four recognized ones, the stored value "none" included, falls
through to false. -/
theorem C10_should_alert_partiality (b : Budget) :
    (b.alert_threshold = "custom" → b.custom_alert_percentage = none →
      b.should_alert = none) ∧
    (b.alert_threshold ≠ "80_percent" → b.alert_threshold ≠ "90_percent" →
      b.alert_threshold ≠ "100_percent" → b.alert_threshold ≠ "custom" →
      b.should_alert = some false) := by
  constructor
  · intro hth hc
    simp +decide [Budget.should_alert, hth, hc]
  · intro h80 h90 h100 hcu
    simp [Budget.should_alert, h80, h90, h100, hcu]

/-- Claim C10, witness: a custom-threshold budget with a null custom
percentage yields no boolean, and a budget with the threshold string
"none" yields false. -/
theorem C10_witness :
    Budget.should_alert ⟨1000, 950, "custom", none⟩ = none ∧
    Budget.should_alert ⟨1000, 950, "none", none⟩ = some false := by
  constructor
  · exact (C10_should_alert_partiality ⟨1000, 950, "custom", none⟩).1 rfl rfl
  · exact (C10_should_alert_partiality ⟨1000, 950, "none", none⟩).2
      (by decide) (by decide) (by decide) (by decide)
